import Mathlib

/-!
Verification of the frkr request-mirroring middleware (Node SDK).

The development shallowly embeds the SDK's routing, credential and
transport logic:

* `normalizePath`, `getStreamId` — path normalization and stream routing
  (source: `index.js`, functions `normalizePath` / `getStreamId`).
* `getAccessToken` — client-credentials token fetch with process-wide
  token/issuer caches.  Network effects (issuer discovery, token grant)
  are passed in as explicit outcomes (`Except`), so one Lean call models
  one JS invocation with the given network results.
* `HttpTransport.send` — the HTTP-JSON transport's send with its
  internal try/catch.
* `mirror` — the per-request behaviour of the middleware returned by
  `mirror(config)` (its sequential denotation: the awaits of the async
  handler composed in order, so everything up to and including the
  `next()` call happens during the one modelled execution), with the
  host continuation `next` modelled by the `nextCalls` counter (the
  host always supplies a callable continuation).

JavaScript truthiness on the relevant values (optional strings, numbers)
is modelled explicitly by `truthyStr` / `truthyInt`.  JS string
operations used by the matcher (`endsWith`, `slice(0,-2)`, `startsWith`,
`split`) are modelled on the character lists of Lean strings.  A JS
object used as a pattern map is modelled as its ordered key/value entry
list with pairwise-distinct keys, matching `Object.entries`.
-/

namespace Frkr

/-- JS truthiness of an optional string: `undefined`/`null` and the empty
string are falsy, every other string is truthy. -/
def truthyStr : Option String → Bool
  | none => false
  | some s => !(s == "")

/-- JS truthiness of an optional number: `undefined` and `0` are falsy. -/
def truthyInt : Option Int → Bool
  | none => false
  | some n => !(n == 0)

/-- JS `a || b` on optional strings. -/
def jsOrStr (a b : Option String) : Option String :=
  if truthyStr a then a else b

/-- JS `a || d` where `d` is a (truthy) string default. -/
def jsOrStrD (a : Option String) (d : String) : String :=
  if truthyStr a then a.getD "" else d

/-- JS `s.endsWith(suf)`. -/
def strEndsWith (s suf : String) : Bool :=
  suf.data.isSuffixOf s.data

/-- JS `s.startsWith(pre)`. -/
def strStartsWith (s pre : String) : Bool :=
  pre.data.isPrefixOf s.data

/-- JS `s.slice(0, -n)` for `n ≤ s.length`. -/
def strDropRight (s : String) (n : Nat) : String :=
  String.mk (s.data.take (s.data.length - n))

/-- The read-only request fields consumed by routing: `req.path` and
`req.url` (absent fields are `none`). -/
structure Req where
  path : Option String
  url : Option String

/-- Source `normalizePath(req)`: prefer a truthy `req.path`; else take
`req.url` up to the first question mark; a falsy result becomes the root
path. -/
def normalizePath (req : Req) : String :=
  let p0 := req.path
  let p1 := if !truthyStr p0 && truthyStr req.url then
      some (String.mk ((req.url.getD "").data.takeWhile (fun ch => ch != '?')))
    else p0
  jsOrStrD p1 "/"

/-- The three shapes a `streamId` configuration value can take: a
function (dynamic routing), an object (pattern map, modelled as the
ordered key/value entries of the JS object, keys distinct), or a plain
string. -/
inductive StreamIdConfig where
  | fn (resolve : Req → Option String)
  | map (entries : List (String × String))
  | str (s : String)

/-- JS truthiness of the configured `streamId` value: functions and
objects are always truthy, a string is truthy iff nonempty. -/
def truthyStreamIdConfig : Option StreamIdConfig → Bool
  | none => false
  | some (.str s) => !(s == "")
  | some _ => true

/-- SDK configuration plus the environment variables consulted by the
source (each `env*` field models the corresponding `process.env` entry). -/
structure Config where
  streamId : Option StreamIdConfig := none
  envStreamId : Option String := none
  issuer : Option String := none
  authDomain : Option String := none
  clientId : Option String := none
  clientSecret : Option String := none
  envClientId : Option String := none
  envClientSecret : Option String := none
  username : Option String := none
  password : Option String := none
  envUsername : Option String := none
  envPassword : Option String := none

/-- Source `config.streamId || process.env.FRKR_STREAM_ID` (the
environment variable, when used, is a string). -/
def resolvedStreamId (cfg : Config) : Option StreamIdConfig :=
  if truthyStreamIdConfig cfg.streamId then cfg.streamId
  else cfg.envStreamId.map StreamIdConfig.str

/-- The prefix-wildcard loop of `getStreamId`: iterate the object entries
in declared order, skipping the catch-all pattern and patterns equal to
the path, and return the first stream id whose pattern ends in the
wildcard suffix and whose stripped prefix equals the path or is followed
by a slash at the start of the path. -/
def wildcardScan (path : String) : List (String × String) → Option String
  | [] => none
  | (pat, sid) :: rest =>
    if pat == "*" || pat == path then wildcardScan path rest
    else if strEndsWith pat "/*" then
      let pre := strDropRight pat 2
      if path == pre || strStartsWith path (pre ++ "/") then some sid
      else wildcardScan path rest
    else wildcardScan path rest

/-- Source `getStreamId(config, req)`: dynamic function first, then
object routing (exact key, then prefix-wildcard scan, then catch-all),
then plain string, else no stream. -/
def getStreamId (cfg : Config) (req : Req) : Option String :=
  match resolvedStreamId cfg with
  | some (.fn f) => f req
  | some (.map entries) =>
    let path := normalizePath req
    match entries.lookup path with
    | some sid => some sid
    | none =>
      match wildcardScan path entries with
      | some sid => some sid
      | none => entries.lookup "*"
  | some (.str s) => some s
  | none => none

/-- One prefix-wildcard test as the spec words it: the pattern ends in
the wildcard suffix and, with the suffix stripped to a prefix, the path
equals the prefix or starts with the prefix followed by a slash. -/
def matchesPrefixPattern (pat path : String) : Bool :=
  strEndsWith pat "/*" &&
    (path == strDropRight pat 2 || strStartsWith path (strDropRight pat 2 ++ "/"))

/-- The process-wide token cache (`tokenCache` in the source): an access
token and its expiry in epoch milliseconds. -/
structure TokenCache where
  accessToken : Option String
  expiresAt : Int
deriving DecidableEq

/-- The process-wide mutable auth state: the token cache plus whether the
issuer metadata has already been discovered (`issuerCache !== null`). -/
structure AuthState where
  tokenCache : TokenCache
  issuerCache : Bool
deriving DecidableEq

/-- The token set returned by a successful client-credentials grant:
`access_token` and the optional `expires_in` (seconds). -/
structure TokenSet where
  access_token : Option String
  expires_in : Option Int
deriving DecidableEq

/-- Outcome of one `getAccessToken` invocation: the returned token or the
thrown error, the updated process state, and whether the discovery and
grant network calls were made. -/
structure FetchOutcome where
  result : Except String String
  state : AuthState
  discoverCalled : Bool
  grantCalled : Bool

/-- The cache test at the top of `getAccessToken`:
`tokenCache.accessToken && Date.now() < tokenCache.expiresAt - 60000`. -/
def cacheHit (st : AuthState) (now : Int) : Bool :=
  truthyStr st.tokenCache.accessToken && decide (now < st.tokenCache.expiresAt - 60000)

/-- Source issuer-URL computation:
`config.issuer || (config.authDomain ? "https://" + authDomain : null)`;
`none` models the falsy result that makes `getAccessToken` throw the
configuration error. -/
def issuerUrlOf (cfg : Config) : Option String :=
  if truthyStr cfg.issuer then cfg.issuer
  else if truthyStr cfg.authDomain then some ("https://" ++ cfg.authDomain.getD "")
  else none

/-- The grant-and-cache tail of `getAccessToken`, reached once an issuer
handle is available: on a truthy `access_token`, write the token cache
with expiry `now + expires_in*1000` when `expires_in` is truthy, else
`now + 3600000`; otherwise throw. -/
def doGrant (st : AuthState) (now : Int) (grantRes : Except String TokenSet)
    (dCalled : Bool) : FetchOutcome :=
  match grantRes with
  | .error e => { result := .error e, state := st, discoverCalled := dCalled, grantCalled := true }
  | .ok ts =>
    if truthyStr ts.access_token then
      let expiresAt := if truthyInt ts.expires_in then now + (ts.expires_in.getD 0) * 1000
        else now + 3600000
      { result := .ok (ts.access_token.getD "")
        state := { st with tokenCache := { accessToken := ts.access_token, expiresAt := expiresAt } }
        discoverCalled := dCalled, grantCalled := true }
    else
      { result := .error "No access_token received from provider"
        state := st, discoverCalled := dCalled, grantCalled := true }

/-- Source `getAccessToken(config)` as a state transition.  `discover`
and `grantRes` are the outcomes the network would produce if the
corresponding call were made; the `discoverCalled`/`grantCalled` flags
record whether it actually was. -/
def getAccessToken (cfg : Config) (now : Int) (st : AuthState)
    (discover : Except String Unit) (grantRes : Except String TokenSet) : FetchOutcome :=
  if cacheHit st now then
    { result := .ok (st.tokenCache.accessToken.getD ""), state := st
      discoverCalled := false, grantCalled := false }
  else
    match issuerUrlOf cfg with
    | none =>
      { result := .error "OIDC issuer or authDomain is required", state := st
        discoverCalled := false, grantCalled := false }
    | some _ =>
      if st.issuerCache then
        doGrant st now grantRes false
      else
        match discover with
        | .error e =>
          { result := .error e, state := st, discoverCalled := true, grantCalled := false }
        | .ok _ => doGrant { st with issuerCache := true } now grantRes true

/-- Effective client id: `config.clientId || process.env.FRKR_CLIENT_ID`. -/
def effClientId (cfg : Config) : Option String := jsOrStr cfg.clientId cfg.envClientId

/-- Effective client secret: `config.clientSecret || process.env.FRKR_CLIENT_SECRET`. -/
def effClientSecret (cfg : Config) : Option String := jsOrStr cfg.clientSecret cfg.envClientSecret

/-- Effective basic-auth username with its built-in default. -/
def effUsername (cfg : Config) : String :=
  jsOrStrD (jsOrStr cfg.username cfg.envUsername) "testuser"

/-- Effective basic-auth password with its built-in default. -/
def effPassword (cfg : Config) : String :=
  jsOrStrD (jsOrStr cfg.password cfg.envPassword) "testpass"

/-- The standard base64 alphabet, indexed 0..63. -/
def b64Char (n : Nat) : Char :=
  (String.toList "ABCDEFGHIJKLMNOPQRSTUVWXYZabcdefghijklmnopqrstuvwxyz0123456789+/").getD n '='

/-- Base64 encoding of a byte list (values 0..255), with padding. -/
def base64Encode : List Nat → String
  | [] => ""
  | [a] => String.mk [b64Char (a / 4), b64Char (a % 4 * 16), '=', '=']
  | [a, b] => String.mk [b64Char (a / 4), b64Char (a % 4 * 16 + b / 16), b64Char (b % 16 * 4), '=']
  | a :: b :: c :: rest =>
    String.mk [b64Char (a / 4), b64Char (a % 4 * 16 + b / 16),
      b64Char (b % 16 * 4 + c / 64), b64Char (c % 64)] ++ base64Encode rest

/-- UTF-8 bytes of one character (as `Buffer.from(string)` produces). -/
def utf8Bytes (c : Char) : List Nat :=
  let n := c.toNat
  if n < 128 then [n]
  else if n < 2048 then [192 + n / 64, 128 + n % 64]
  else if n < 65536 then [224 + n / 4096, 128 + n / 64 % 64, 128 + n % 64]
  else [240 + n / 262144, 128 + n / 4096 % 64, 128 + n / 64 % 64, 128 + n % 64]

/-- `Buffer.from(s).toString("base64")`. -/
def base64OfString (s : String) : String :=
  base64Encode (s.data.map utf8Bytes).flatten

/-- Outcome of the auth-header block of the middleware. -/
structure AuthHeaderOutcome where
  header : Except String String
  state : AuthState
  discoverCalled : Bool
  grantCalled : Bool

/-- The auth-header block of the middleware body: client-credentials
bearer token when both client id and secret are truthy, else the basic
header from the base64 of `username:password` (no state change, no
network). -/
def buildAuthHeader (cfg : Config) (now : Int) (st : AuthState)
    (discover : Except String Unit) (grantRes : Except String TokenSet) : AuthHeaderOutcome :=
  if truthyStr (effClientId cfg) && truthyStr (effClientSecret cfg) then
    let fo := getAccessToken cfg now st discover grantRes
    { header := fo.result.map (fun t => "Bearer " ++ t), state := fo.state
      discoverCalled := fo.discoverCalled, grantCalled := fo.grantCalled }
  else
    { header := .ok ("Basic " ++ base64OfString (effUsername cfg ++ ":" ++ effPassword cfg))
      state := st, discoverCalled := false, grantCalled := false }

/-- Source `HttpTransport.send`: POST the envelope; the whole body is
wrapped in try/catch, a failure only produces a log line.  `postOutcome`
is what the POST would do; the returned value is `ok logs` — an `error`
would model an exception escaping `send`. -/
def HttpTransport.send (postOutcome : Except String Unit) : Except String (List String) :=
  match postOutcome with
  | .ok _ => .ok []
  | .error e => .ok ["Failed to mirror request (HTTP): " ++ e]

/-- Outcome of one execution of the middleware body for one request:
how many times the host continuation `next` was invoked, the auth header
handed to the transport (`none` when mirroring was skipped), the updated
process-wide auth state, and the log lines produced by the dispatch. -/
structure HandlerOutcome where
  nextCalls : Nat
  sent : Option String
  state : AuthState
  logs : List String
deriving DecidableEq

/-- The per-request behaviour of the middleware returned by
`mirror(config)` (sequential denotation of the async handler): resolve
the stream id and skip on a falsy result; build the auth header and skip
on a credential failure; otherwise dispatch fire-and-forget through the
transport; every branch invokes `next` exactly once before returning. -/
def mirror (cfg : Config) (req : Req) (now : Int) (st : AuthState)
    (discover : Except String Unit) (grantRes : Except String TokenSet)
    (postOutcome : Except String Unit) : HandlerOutcome :=
  let sid := getStreamId cfg req
  if !truthyStr sid then
    { nextCalls := 1, sent := none, state := st, logs := [] }
  else
    let ao := buildAuthHeader cfg now st discover grantRes
    match ao.header with
    | .error _ => { nextCalls := 1, sent := none, state := ao.state, logs := [] }
    | .ok h =>
      let sendLogs := match HttpTransport.send postOutcome with
        | .ok l => l
        | .error e => ["Failed to mirror request (http): " ++ e]
      { nextCalls := 1, sent := some h, state := ao.state, logs := sendLogs }

/-- Configuration used to exercise a discovery failure: client
credentials and an issuer are present, so the token fetch is attempted. -/
def discoveryFailCfg : Config :=
  { issuer := some "https://issuer.example", clientId := some "id"
    clientSecret := some "sec", streamId := some (.str "s") }

example : normalizePath ⟨some "/a/b", none⟩ = "/a/b" := by decide
example : normalizePath ⟨none, some "/a/b?x=1"⟩ = "/a/b" := by decide
example : normalizePath ⟨some "", none⟩ = "/" := by decide
example :
    getStreamId { streamId := some (.map [("/api/v1/*", "v1"), ("/api/*", "api"), ("*", "default")]) }
      ⟨some "/api/v1/users", none⟩ = some "v1" := by decide
example :
    getStreamId { streamId := some (.map [("/api/v1/*", "v1"), ("/api/*", "api"), ("*", "default")]) }
      ⟨some "/api", none⟩ = some "api" := by decide
example :
    getStreamId { streamId := some (.map [("/x", "a")]) } ⟨some "/y", none⟩ = none := by decide
example : base64OfString "testuser:testpass" = "dGVzdHVzZXI6dGVzdHBhc3M=" := by decide

theorem lookup_eq_some_of_nodup_mem {l : List (String × String)} {a b : String}
    (hnd : (l.map Prod.fst).Nodup) (h : (a, b) ∈ l) : l.lookup a = some b := by
  induction l with
  | nil => simp at h
  | cons hd tl ih =>
    obtain ⟨k, v⟩ := hd
    rw [List.map_cons, List.nodup_cons] at hnd
    rcases List.mem_cons.mp h with h1 | h1
    · rw [Prod.mk.injEq] at h1
      obtain ⟨rfl, rfl⟩ := h1
      simp [List.lookup]
    · have hne : a ≠ k := by
        intro he
        exact hnd.1 (he ▸ List.mem_map.mpr ⟨(a, b), h1, rfl⟩)
      have hbeq : (a == k) = false := beq_false_of_ne hne
      simp only [List.lookup, hbeq]
      exact ih hnd.2 h1

theorem wildcardScan_eq_find_of_no_exact {l : List (String × String)} {path : String}
    (h : l.lookup path = none) :
    wildcardScan path l = (l.find? (fun e => matchesPrefixPattern e.1 path)).map Prod.snd := by
  induction l with
  | nil => rfl
  | cons hd tl ih =>
    obtain ⟨pat, sid⟩ := hd
    simp only [List.lookup] at h
    cases hpp : (path == pat) with
    | true => rw [hpp] at h; simp at h
    | false =>
      rw [hpp] at h
      have htl := ih h
      have hpp2 : (pat == path) = false := beq_false_of_ne (Ne.symm (ne_of_beq_false hpp))
      simp only [wildcardScan, List.find?, hpp2, Bool.or_false]
      cases hstar : (pat == "*") with
      | true =>
        have hps : pat = "*" := eq_of_beq hstar
        subst hps
        have hse : strEndsWith "*" "/*" = false := by decide
        simp [matchesPrefixPattern, hse, htl]
      | false =>
        cases hend : strEndsWith pat "/*" with
        | false => simp [matchesPrefixPattern, hend, htl]
        | true =>
          cases hc : (path == strDropRight pat 2 || strStartsWith path (strDropRight pat 2 ++ "/")) with
          | true => simp [matchesPrefixPattern, hend, hc]
          | false => simp [matchesPrefixPattern, hend, hc, htl]

theorem doGrant_ok_props (st : AuthState) (now : Int) (ts : TokenSet) (dc : Bool)
    (tok : String) (htok : ts.access_token = some tok) (hne : tok ≠ "") :
    (doGrant st now (.ok ts) dc).result = .ok tok
    ∧ (doGrant st now (.ok ts) dc).grantCalled = true
    ∧ (doGrant st now (.ok ts) dc).state.tokenCache.accessToken = some tok
    ∧ (∀ ei, ts.expires_in = some ei → ei ≠ 0 →
        (doGrant st now (.ok ts) dc).state.tokenCache.expiresAt = now + ei * 1000)
    ∧ ((ts.expires_in = none ∨ ts.expires_in = some 0) →
        (doGrant st now (.ok ts) dc).state.tokenCache.expiresAt = now + 3600000) := by
  have htr : truthyStr (some tok) = true := by simp [truthyStr, hne]
  refine ⟨?_, ?_, ?_, ?_, ?_⟩
  · simp [doGrant, htok, htr]
  · simp [doGrant, htok, htr]
  · simp [doGrant, htok, htr]
  · intro ei hei hnei
    have hti : truthyInt (some ei) = true := by simp [truthyInt, hnei]
    simp [doGrant, htok, htr, hti, hei]
  · intro hcase
    have hti : truthyInt ts.expires_in = false := by
      rcases hcase with hc | hc <;> simp [truthyInt, hc]
    simp [doGrant, htok, htr, hti]

theorem getAccessToken_reaches_grant (cfg : Config) (now : Int) (st : AuthState)
    (d : Except String Unit) (g : Except String TokenSet) (u : String)
    (hmiss : cacheHit st now = false) (hu : issuerUrlOf cfg = some u)
    (hdisc : st.issuerCache = true ∨ d = .ok ()) :
    ∃ dc, getAccessToken cfg now st d g = doGrant { st with issuerCache := true } now g dc := by
  unfold getAccessToken
  rw [hmiss, hu]
  cases hic : st.issuerCache with
  | true =>
    refine ⟨false, ?_⟩
    have hst : ({ st with issuerCache := true } : AuthState) = st := by
      cases st with
      | mk tc ic => simp at hic; rw [hic]
    rw [hst]
    rfl
  | false =>
    have hd : d = .ok () := by
      rcases hdisc with hc | hc
      · rw [hic] at hc; exact absurd hc (by simp)
      · exact hc
    subst hd
    exact ⟨true, rfl⟩

theorem doGrant_tokenCache_of_error {st : AuthState} {now : Int}
    {g : Except String TokenSet} {dc : Bool} {e : String}
    (h : (doGrant st now g dc).result = .error e) :
    (doGrant st now g dc).state.tokenCache = st.tokenCache := by
  cases g with
  | error e2 => rfl
  | ok ts =>
    cases htr : truthyStr ts.access_token with
    | false => simp [doGrant, htr]
    | true =>
      rw [show (doGrant st now (.ok ts) dc).result = .ok (ts.access_token.getD "") by
        simp [doGrant, htr]] at h
      exact absurd h (by simp)

theorem getAccessToken_error_tokenCache {cfg : Config} {now : Int} {st : AuthState}
    {d : Except String Unit} {g : Except String TokenSet} {e : String}
    (hfail : (getAccessToken cfg now st d g).result = .error e) :
    (getAccessToken cfg now st d g).state.tokenCache = st.tokenCache := by
  unfold getAccessToken at hfail ⊢
  cases hh : cacheHit st now with
  | true => rw [hh] at hfail; simp at hfail
  | false =>
    rw [hh] at hfail
    simp only [Bool.false_eq_true, if_false] at hfail ⊢
    cases hu : issuerUrlOf cfg with
    | none => rfl
    | some u =>
      rw [hu] at hfail
      cases hic : st.issuerCache with
      | true =>
        rw [hic] at hfail
        simp only [eq_self_iff_true, if_true] at hfail ⊢
        exact doGrant_tokenCache_of_error hfail
      | false =>
        rw [hic] at hfail
        simp only [Bool.false_eq_true, if_false] at hfail ⊢
        cases d with
        | error e2 => rfl
        | ok u2 => exact doGrant_tokenCache_of_error hfail

theorem cacheHit_false_mono {st : AuthState} {now nowL : Int}
    (h : cacheHit st now = false) (hle : now ≤ nowL) : cacheHit st nowL = false := by
  unfold cacheHit at h ⊢
  cases ht : truthyStr st.tokenCache.accessToken with
  | false => simp [ht]
  | true =>
    rw [ht] at h
    simp only [Bool.true_and] at h ⊢
    rw [decide_eq_false_iff_not] at h ⊢
    omega

theorem cacheHit_false_of_error {cfg : Config} {now : Int} {st : AuthState}
    {d : Except String Unit} {g : Except String TokenSet} {e : String}
    (hfail : (getAccessToken cfg now st d g).result = .error e) :
    cacheHit st now = false := by
  cases hh : cacheHit st now with
  | false => rfl
  | true =>
    unfold getAccessToken at hfail
    rw [hh] at hfail
    simp at hfail

/-- Claim C1: for every request handled by the middleware returned by
`mirror`, the host's continuation callback `next` is invoked exactly
once during the handler's execution — regardless of the mirroring
outcome (no stream resolved, credential failure, or transport failure),
since `nextCalls = 1` holds for every routing result, every network
outcome and every transport outcome. -/
theorem claim_C1_next_called_exactly_once (cfg : Config) (req : Req) (now : Int)
    (st : AuthState) (d : Except String Unit) (g : Except String TokenSet)
    (po : Except String Unit) :
    (mirror cfg req now st d g po).nextCalls = 1 := by
  unfold mirror
  dsimp only
  split
  · rfl
  · split <;> rfl

/-- Claim C2: for every pattern-map configuration whose entry keys are
distinct (as the keys of a JS object are) and every request, an entry
whose pattern equals the normalized path exactly is returned, regardless
of its position in the map and of any overlapping wildcard or catch-all
entries. -/
theorem claim_C2_exact_match_wins (cfg : Config) (req : Req)
    (entries : List (String × String)) (pat sid : String)
    (hc : cfg.streamId = some (.map entries))
    (hnd : (entries.map Prod.fst).Nodup)
    (hmem : (pat, sid) ∈ entries)
    (hpat : pat = normalizePath req) :
    getStreamId cfg req = some sid := by
  subst hpat
  unfold getStreamId resolvedStreamId
  rw [hc]
  simp only [truthyStreamIdConfig, if_true]
  rw [lookup_eq_some_of_nodup_mem hnd hmem]

/-- Claim C3: for every pattern-map configuration with no exact match for
the normalized path, the resolver scans entries in declared order and
returns the stream id of the first entry whose pattern ends in the
wildcard suffix and whose stripped prefix equals the path or is followed
by a slash at the start of the path (`List.find?` captures the
first-match-in-declared-order scan; `matchesPrefixPattern` includes the
prefix-equality case that makes the path `/api` match pattern
`/api/*`). -/
theorem claim_C3_prefix_scan_first_match (cfg : Config) (req : Req)
    (entries : List (String × String)) (pat sid : String)
    (hc : cfg.streamId = some (.map entries))
    (hnoexact : entries.lookup (normalizePath req) = none)
    (hfind : entries.find? (fun e => matchesPrefixPattern e.1 (normalizePath req))
      = some (pat, sid)) :
    getStreamId cfg req = some sid := by
  unfold getStreamId resolvedStreamId
  rw [hc]
  simp only [truthyStreamIdConfig, if_true]
  rw [hnoexact, wildcardScan_eq_find_of_no_exact hnoexact, hfind]
  rfl

/-- Claim C4: when the configured stream id is a function, the resolver
invokes it on the request and returns its result verbatim — including
`none` — without consulting the pattern-map or single-string logic, for
every environment-supplied string configuration that may also be
present. -/
theorem claim_C4_dynamic_verbatim (cfg : Config) (req : Req) (f : Req → Option String)
    (hc : cfg.streamId = some (.fn f)) :
    getStreamId cfg req = f req := by
  unfold getStreamId resolvedStreamId
  rw [hc]
  rfl

/-- Claim C5 (counterexample to the claim as stated): with `now = 0` and
a grant returning `expires_in = 0`, the code caches expiry
`now + 3600000` (the 1-hour default, because JS `if (tokenSet.expires_in)`
treats `0` as falsy), not `now + expires_in*1000 = 0` as the claim's
"when the provider returned an expiry" case predicts. -/
theorem claim_C5_counterexample :
    (getAccessToken { issuer := some "https://issuer.example" } 0
        ⟨⟨none, 0⟩, true⟩ (.ok ()) (.ok ⟨some "tok", some 0⟩)).state.tokenCache.expiresAt
      = 3600000
    ∧ (3600000 : Int) ≠ 0 + 0 * 1000 := by
  constructor
  · rfl
  · decide

/-- Claim C5 (amended): if a (nonempty) cached token exists and
`now < expiresAt − 60000`, it is returned with no discovery or grant
call and no state change; otherwise, when the grant succeeds with a
token, the grant call is performed and the cache's expiry becomes
`now + expires_in*1000` when the provider returned a NONZERO expiry, and
`now + 3600000` (one hour) when the expiry is absent or zero. -/
theorem claim_C5_token_cache_policy (cfg : Config) (now : Int) (st : AuthState)
    (d : Except String Unit) (g : Except String TokenSet) :
    (∀ t, st.tokenCache.accessToken = some t → t ≠ "" →
        now < st.tokenCache.expiresAt - 60000 →
        getAccessToken cfg now st d g =
          { result := .ok t, state := st, discoverCalled := false, grantCalled := false })
    ∧ (∀ ts tok, cacheHit st now = false → g = .ok ts →
        (st.issuerCache = true ∨ d = .ok ()) →
        issuerUrlOf cfg ≠ none →
        ts.access_token = some tok → tok ≠ "" →
        (getAccessToken cfg now st d g).result = .ok tok
        ∧ (getAccessToken cfg now st d g).grantCalled = true
        ∧ (getAccessToken cfg now st d g).state.tokenCache.accessToken = some tok
        ∧ (∀ ei, ts.expires_in = some ei → ei ≠ 0 →
            (getAccessToken cfg now st d g).state.tokenCache.expiresAt = now + ei * 1000)
        ∧ ((ts.expires_in = none ∨ ts.expires_in = some 0) →
            (getAccessToken cfg now st d g).state.tokenCache.expiresAt = now + 3600000)) := by
  constructor
  · intro t ht hne hexp
    have hhit : cacheHit st now = true := by
      simp [cacheHit, truthyStr, ht, hne, hexp]
    unfold getAccessToken
    rw [hhit]
    simp [ht]
  · intro ts tok hmiss hg hdisc hurl htok hne
    subst hg
    obtain ⟨u, hu⟩ := Option.ne_none_iff_exists'.mp hurl
    obtain ⟨dc, hred⟩ := getAccessToken_reaches_grant cfg now st d (.ok ts) u hmiss hu hdisc
    rw [hred]
    exact doGrant_ok_props _ now ts dc tok htok hne

/-- Witness for C5: a cache hit (expiry far away) returns the cached
token untouched even when the network is down; a cache miss with a grant
returning `expires_in = 7200` caches expiry `now + 7200*1000`. -/
theorem claim_C5_witness :
    (getAccessToken {} 0 ⟨⟨some "cached", 1000000⟩, true⟩ (.error "down") (.error "down")
      = { result := .ok "cached", state := ⟨⟨some "cached", 1000000⟩, true⟩
          discoverCalled := false, grantCalled := false })
    ∧ (getAccessToken { issuer := some "https://issuer.example" } 5 ⟨⟨none, 0⟩, false⟩
        (.ok ()) (.ok ⟨some "t2", some 7200⟩)).state.tokenCache.expiresAt = 5 + 7200 * 1000 :=
  ⟨(claim_C5_token_cache_policy {} 0 ⟨⟨some "cached", 1000000⟩, true⟩
      (.error "down") (.error "down")).1 "cached" rfl (by decide) (by decide),
   ((claim_C5_token_cache_policy { issuer := some "https://issuer.example" } 5 ⟨⟨none, 0⟩, false⟩
      (.ok ()) (.ok ⟨some "t2", some 7200⟩)).2 ⟨some "t2", some 7200⟩ "t2" (by decide) rfl
      (Or.inr rfl) (by decide) rfl (by decide)).2.2.2.1 7200 rfl (by decide)⟩

/-- Claim C6: on a cache miss with neither `issuer` nor `authDomain`
configured, the token fetch fails with the configuration error — no
discovery, no grant, no substituted default issuer, state unchanged —
and a request whose stream resolved and whose client credentials are
configured is not mirrored while `next` is still invoked once. -/
theorem claim_C6_missing_issuer_config_error (cfg : Config) (req : Req) (now : Int)
    (st : AuthState) (d : Except String Unit) (g : Except String TokenSet)
    (po : Except String Unit)
    (hiss : cfg.issuer = none) (hdom : cfg.authDomain = none)
    (hmiss : cacheHit st now = false) :
    getAccessToken cfg now st d g =
      { result := .error "OIDC issuer or authDomain is required", state := st
        discoverCalled := false, grantCalled := false }
    ∧ ((truthyStr (effClientId cfg) && truthyStr (effClientSecret cfg)) = true →
        truthyStr (getStreamId cfg req) = true →
        (mirror cfg req now st d g po).sent = none
        ∧ (mirror cfg req now st d g po).nextCalls = 1) := by
  have hurl : issuerUrlOf cfg = none := by simp [issuerUrlOf, hiss, hdom, truthyStr]
  have hga : getAccessToken cfg now st d g =
      { result := .error "OIDC issuer or authDomain is required", state := st
        discoverCalled := false, grantCalled := false } := by
    unfold getAccessToken
    rw [hmiss, hurl]
    rfl
  refine ⟨hga, ?_⟩
  intro hcred hsid
  have hb : buildAuthHeader cfg now st d g =
      { header := .error "OIDC issuer or authDomain is required", state := st
        discoverCalled := false, grantCalled := false } := by
    unfold buildAuthHeader
    rw [hcred]
    simp [hga, Except.map]
  constructor <;> simp [mirror, hsid, hb]

/-- Witness for C6: stream id and client credentials configured but no
issuer and no auth domain — the fetch errors without touching the
network, the mirror is skipped, and `next` still runs once. -/
theorem claim_C6_witness :
    getAccessToken { streamId := some (.str "s"), clientId := some "id", clientSecret := some "sec" }
        0 ⟨⟨none, 0⟩, false⟩ (.error "never") (.error "never") =
      { result := .error "OIDC issuer or authDomain is required", state := ⟨⟨none, 0⟩, false⟩
        discoverCalled := false, grantCalled := false }
    ∧ (mirror { streamId := some (.str "s"), clientId := some "id", clientSecret := some "sec" }
        ⟨some "/a", none⟩ 0 ⟨⟨none, 0⟩, false⟩ (.error "never") (.error "never") (.ok ())).sent = none
    ∧ (mirror { streamId := some (.str "s"), clientId := some "id", clientSecret := some "sec" }
        ⟨some "/a", none⟩ 0 ⟨⟨none, 0⟩, false⟩ (.error "never") (.error "never") (.ok ())).nextCalls = 1 := by
  have h := claim_C6_missing_issuer_config_error
    { streamId := some (.str "s"), clientId := some "id", clientSecret := some "sec" }
    ⟨some "/a", none⟩ 0 ⟨⟨none, 0⟩, false⟩ (.error "never") (.error "never") (.ok ())
    rfl rfl (by decide)
  exact ⟨h.1, (h.2 (by decide) (by decide)).1, (h.2 (by decide) (by decide)).2⟩

/-- Claim C7: whenever client id and client secret are not both (truthy)
present, the auth header is `"Basic " ++ base64("{username}:{password}")`
for the effective username and password; building it always succeeds,
changes no state, and performs no discovery or grant call. -/
theorem claim_C7_basic_auth_fallback (cfg : Config) (now : Int) (st : AuthState)
    (d : Except String Unit) (g : Except String TokenSet)
    (h : ¬(truthyStr (effClientId cfg) = true ∧ truthyStr (effClientSecret cfg) = true)) :
    buildAuthHeader cfg now st d g =
      { header := .ok ("Basic " ++ base64OfString (effUsername cfg ++ ":" ++ effPassword cfg))
        state := st, discoverCalled := false, grantCalled := false } := by
  have hc : (truthyStr (effClientId cfg) && truthyStr (effClientSecret cfg)) = false := by
    rw [← Bool.not_eq_true, Bool.and_eq_true]
    exact h
  unfold buildAuthHeader
  rw [hc]
  simp

/-- Witness for C7: a client id without a secret falls back to basic
auth with the default credentials, whose header is the base64 of
`testuser:testpass`, with no state change even though the network
outcomes are failures. -/
theorem claim_C7_witness :
    buildAuthHeader { clientId := some "id-only" } 0 ⟨⟨none, 0⟩, false⟩ (.error "x") (.error "y")
      = { header := .ok "Basic dGVzdHVzZXI6dGVzdHBhc3M="
          state := ⟨⟨none, 0⟩, false⟩, discoverCalled := false, grantCalled := false } := by
  rw [claim_C7_basic_auth_fallback { clientId := some "id-only" } 0 ⟨⟨none, 0⟩, false⟩
    (.error "x") (.error "y") (by decide)]
  rfl

/-- Claim C8: the HTTP-JSON transport's send never raises or rejects to
its caller — for every POST outcome, including connection errors and
non-2xx responses (both modelled as the `error` case of the outcome),
`send` returns normally, carrying only log lines. -/
theorem claim_C8_http_send_never_raises (po : Except String Unit) :
    ∃ logs, HttpTransport.send po = .ok logs := by
  cases po with
  | ok u => exact ⟨[], rfl⟩
  | error e => exact ⟨["Failed to mirror request (HTTP): " ++ e], rfl⟩

/-- Claim C9: any failed token-fetch attempt (in particular a discovery
or grant failure) leaves the token cache exactly as it was, so any later
request (at any `nowL ≥ now`) misses the cache again and retries the
fetch; and on such a failure the request's mirror is skipped while the
host continuation still runs exactly once. -/
theorem claim_C9_failure_not_poisoning (cfg : Config) (req : Req) (now nowL : Int)
    (st : AuthState) (d : Except String Unit) (g : Except String TokenSet)
    (po : Except String Unit) (e : String)
    (hfail : (getAccessToken cfg now st d g).result = .error e) :
    (getAccessToken cfg now st d g).state.tokenCache = st.tokenCache
    ∧ (now ≤ nowL → cacheHit (getAccessToken cfg now st d g).state nowL = false)
    ∧ ((truthyStr (effClientId cfg) && truthyStr (effClientSecret cfg)) = true →
        truthyStr (getStreamId cfg req) = true →
        (mirror cfg req now st d g po).sent = none
        ∧ (mirror cfg req now st d g po).nextCalls = 1
        ∧ (mirror cfg req now st d g po).state.tokenCache = st.tokenCache) := by
  have htc := getAccessToken_error_tokenCache hfail
  have hmiss := cacheHit_false_of_error hfail
  refine ⟨htc, ?_, ?_⟩
  · intro hle
    have hsame : cacheHit (getAccessToken cfg now st d g).state nowL = cacheHit st nowL := by
      unfold cacheHit
      rw [htc]
    rw [hsame]
    exact cacheHit_false_mono hmiss hle
  · intro hcred hsid
    have hb : buildAuthHeader cfg now st d g =
        { header := .error e, state := (getAccessToken cfg now st d g).state
          discoverCalled := (getAccessToken cfg now st d g).discoverCalled
          grantCalled := (getAccessToken cfg now st d g).grantCalled } := by
      unfold buildAuthHeader
      rw [hcred]
      simp [hfail, Except.map]
    refine ⟨?_, ?_, ?_⟩ <;> simp [mirror, hsid, hb, htc]

/-- Witness for C9: a concrete discovery failure (connection refused)
leaves the empty token cache empty, skips the mirror, and still calls
`next` once. -/
theorem claim_C9_witness :
    (getAccessToken discoveryFailCfg 0 ⟨⟨none, 0⟩, false⟩
        (.error "ECONNREFUSED") (.error "never")).state.tokenCache = ⟨none, 0⟩
    ∧ (mirror discoveryFailCfg ⟨some "/a", none⟩ 0
        ⟨⟨none, 0⟩, false⟩ (.error "ECONNREFUSED") (.error "never") (.ok ())).sent = none
    ∧ (mirror discoveryFailCfg ⟨some "/a", none⟩ 0
        ⟨⟨none, 0⟩, false⟩ (.error "ECONNREFUSED") (.error "never") (.ok ())).nextCalls = 1 := by
  have h := claim_C9_failure_not_poisoning discoveryFailCfg
    ⟨some "/a", none⟩ 0 100 ⟨⟨none, 0⟩, false⟩ (.error "ECONNREFUSED") (.error "never") (.ok ())
    "ECONNREFUSED" rfl
  exact ⟨h.1, (h.2.2 (by decide) (by decide)).1, (h.2.2 (by decide) (by decide)).2.1⟩

/-- Claim C10: when the resolver returns the empty string (a non-null
falsy value, reachable from a pattern-map entry mapping to the empty
string or a dynamic function returning it), the middleware skips
mirroring and invokes the continuation exactly as if no stream had
resolved. -/
theorem claim_C10_empty_stream_skips (cfg : Config) (req : Req) (now : Int)
    (st : AuthState) (d : Except String Unit) (g : Except String TokenSet)
    (po : Except String Unit)
    (h : getStreamId cfg req = some "") :
    (mirror cfg req now st d g po).sent = none
    ∧ (mirror cfg req now st d g po).nextCalls = 1
    ∧ (mirror cfg req now st d g po).state = st := by
  unfold mirror
  rw [h]
  exact ⟨rfl, rfl, rfl⟩

/-- Witness for C2: the exact entry wins even when declared after an
overlapping wildcard entry. -/
theorem claim_C2_witness :
    getStreamId { streamId := some (.map [("/api/*", "wild"), ("/api", "exact")]) }
      ⟨some "/api", none⟩ = some "exact" :=
  claim_C2_exact_match_wins _ _ _ "/api" "exact" rfl (by decide) (by decide) (by decide)

/-- Witness for C3: path `/api` matches pattern `/api/*` via the
prefix-equality case. -/
theorem claim_C3_witness :
    getStreamId { streamId := some (.map [("/api/*", "api"), ("*", "default")]) }
      ⟨some "/api", none⟩ = some "api" :=
  claim_C3_prefix_scan_first_match _ _ _ "/api/*" "api" rfl (by decide) (by decide)

/-- Witness for C4: a dynamic function returning `none` is passed
through unchanged even though an environment stream id string is also
present. -/
theorem claim_C4_witness :
    getStreamId { streamId := some (.fn fun _ => none), envStreamId := some "env-stream" }
      ⟨some "/a", none⟩ = none :=
  claim_C4_dynamic_verbatim _ _ _ rfl

/-- Witness for C10: the entry `"/x" ↦ ""` resolves to the empty string
and the middleware skips mirroring while calling `next` once. -/
theorem claim_C10_witness :
    (mirror { streamId := some (.map [("/x", "")]) } ⟨some "/x", none⟩ 0
        ⟨⟨none, 0⟩, false⟩ (.ok ()) (.error "no net") (.ok ())).sent = none
    ∧ (mirror { streamId := some (.map [("/x", "")]) } ⟨some "/x", none⟩ 0
        ⟨⟨none, 0⟩, false⟩ (.ok ()) (.error "no net") (.ok ())).nextCalls = 1
    ∧ (mirror { streamId := some (.map [("/x", "")]) } ⟨some "/x", none⟩ 0
        ⟨⟨none, 0⟩, false⟩ (.ok ()) (.error "no net") (.ok ())).state = ⟨⟨none, 0⟩, false⟩ :=
  claim_C10_empty_stream_skips _ _ _ _ _ _ _ (by decide)

end Frkr
